import Mathlib

/-!
Verification of the query-building and result-shaping logic of
`cola_streamlit_app.py` (TTB COLA data explorer).

The definitions below are a shallow embedding of the Python source:
`isColaIdList` embeds `is_cola_id_list`; `buildClauses`, `whereClauses`,
`queryParams`, `whereSQL` and `mainQuery` embed the WHERE-clause
construction inside `main` (lines 491-611); `displayedRecords` and
`resultsMessage` embed the display truncation and the results banner;
`auxGet` and `mergeRecords` embed the image/violation enrichment merge;
`getFlagIcon` embeds `get_flag_icon`.  SQL fragment strings reproduce the
Python string literals byte for byte, including indentation and trailing
blanks of the triple-quoted blocks.
-/

/-- Python `sep.join(xs)`. -/
def joinSep (sep : String) : List String → String
  | [] => ""
  | [x] => x
  | x :: y :: xs => x ++ sep ++ joinSep sep (y :: xs)

/-- Python `s.split(sep)` for a one-character separator, over char lists:
always returns at least one (possibly empty) piece. -/
def splitChars (sep : Char) : List Char → List (List Char)
  | [] => [[]]
  | c :: t =>
    if c = sep then [] :: splitChars sep t
    else
      match splitChars sep t with
      | [] => [[c]]
      | g :: gs => (c :: g) :: gs

/-- Python `s.strip()` over a char list. -/
def trimChars (l : List Char) : List Char :=
  ((l.dropWhile Char.isWhitespace).reverse.dropWhile Char.isWhitespace).reverse

/-- Python `s.lower()`. -/
def strLower (s : String) : String :=
  ⟨s.data.map Char.toLower⟩

/-- Python `s.strip()`. -/
def strTrim (s : String) : String :=
  ⟨trimChars s.data⟩

/-- Python `','.join(['?' for _ in xs])`: one `?` placeholder per element. -/
def placeholders (xs : List String) : String :=
  joinSep "," (xs.map fun _ => "?")

/-- Number of `?` placeholder characters in a SQL fragment. -/
def countQ (s : String) : Nat :=
  s.data.count '?'

/-- `is_cola_id_list(search_term)` (lines 301-327): `True` with the list of
stripped tokens when the term splits on commas into tokens that are all
exactly 14 digits, `(False, [])` otherwise (also for a falsy term). -/
def isColaIdList (searchTerm : String) : Bool × List String :=
  if searchTerm = "" then (false, [])
  else
    let parts := (splitChars ',' searchTerm.data).map trimChars
    if parts.all (fun p => p.length == 14 && p.all Char.isDigit) then
      if parts.isEmpty then (false, []) else (true, parts.map fun l => ⟨l⟩)
    else (false, [])

/-- The sidebar filter state consumed by the WHERE-clause construction.
Dates are carried as their `str()` images, `none` for Python `None`. -/
structure FilterState where
  searchTerm : String
  excludeTerm : String
  selectedOrigin : List String
  selectedClassType : List String
  selectedCommodity : List String
  selectedBrand : List String
  selectedViolationGroup : List String
  selectedStart : Option String
  selectedEnd : Option String

/-- Lines 498-501: the fast-path test runs only when `search_term` is truthy. -/
def colaListCheck (s : FilterState) : Bool × List String :=
  if s.searchTerm = "" then (false, []) else isColaIdList s.searchTerm

/-- Line 505: `'c.cola_id IN (' + ','.join(...) + ')'`. -/
def colaIdClauseSQL (ids : List String) : String :=
  "c.cola_id IN (" ++ placeholders ids ++ ")"

/-- Line 512. -/
def originClauseSQL (sel : List String) : String :=
  "COALESCE(c.origin, 'UNKNOWN') IN (" ++ placeholders sel ++ ")"

/-- Line 515. -/
def classTypeClauseSQL (sel : List String) : String :=
  "COALESCE(c.class_type, 'UNKNOWN') IN (" ++ placeholders sel ++ ")"

/-- Line 518: note the commodity column is compared directly, without
`COALESCE`. -/
def commodityClauseSQL (sel : List String) : String :=
  "c.ct_commodity IN (" ++ placeholders sel ++ ")"

/-- Line 521. -/
def brandClauseSQL (sel : List String) : String :=
  "COALESCE(c.brand_name, 'UNKNOWN') IN (" ++ placeholders sel ++ ")"

/-- Lines 525-531: the violation-group filter is an `EXISTS` subquery over the
violations view, reproduced with the triple-quoted literal's whitespace. -/
def violationClauseSQL (sel : List String) : String :=
  "\n                EXISTS (\n                    SELECT 1 FROM cola_images.vw_cola_violations_list v \n                    WHERE v.cola_id = c.cola_id \n                    AND v.violation_group IN (" ++ placeholders sel ++ ")\n                )\n            "

/-- Lines 542-569 (and identically 576-601): the seven OR-ed search
conditions, binding `?` five times on base columns, once in the
image-analysis `EXISTS` and twice in the violation-analysis `EXISTS`. -/
def searchConditions : List String :=
  ["LOWER(CAST(c.cola_id AS VARCHAR)) LIKE ?",
   "LOWER(COALESCE(c.brand_name, '')) LIKE ?",
   "LOWER(COALESCE(c.fanciful_name, '')) LIKE ?",
   "LOWER(COALESCE(c.permit_num, '')) LIKE ?",
   "LOWER(COALESCE(c.serial_num, '')) LIKE ?",
   "\n                    EXISTS (\n                        SELECT 1 from cola_images.image_analysis_items iai \n                        WHERE iai.cola_id = c.cola_id \n                        AND LOWER(COALESCE(iai.text, '')) LIKE ?\n                    )\n                ",
   "\n                    EXISTS (\n                        SELECT 1 from cola_images.cola_analysis ca\n                        WHERE ca.cola_id = c.cola_id\n                        AND (\n                            LOWER(CAST(ca.response AS VARCHAR)) LIKE ?\n                            OR LOWER(CAST(ca.metadata AS VARCHAR)) LIKE ?\n                        )\n                    )\n                "]

/-- Line 571: `'(' + ' OR '.join(search_conditions) + ')'`. -/
def searchClauseSQL : String :=
  "(" ++ joinSep " OR " searchConditions ++ ")"

/-- Line 603: `'NOT (' + ' OR '.join(exclude_conditions) + ')'`. -/
def excludeClauseSQL : String :=
  "NOT (" ++ joinSep " OR " searchConditions ++ ")"

/-- Line 541 / 575: the lowercased `%`-wrapped LIKE pattern. -/
def likePattern (term : String) : String :=
  "%" ++ strLower term ++ "%"

/-- A WHERE-clause chunk: the appended clause text paired with the parameters
it pushes onto `params`, in the order the Python appends them. -/
abbrev Chunk := String × List String

def originChunk (s : FilterState) : List Chunk :=
  if s.selectedOrigin.isEmpty then [] else
    [(originClauseSQL s.selectedOrigin, s.selectedOrigin)]

def classTypeChunk (s : FilterState) : List Chunk :=
  if s.selectedClassType.isEmpty then [] else
    [(classTypeClauseSQL s.selectedClassType, s.selectedClassType)]

def commodityChunk (s : FilterState) : List Chunk :=
  if s.selectedCommodity.isEmpty then [] else
    [(commodityClauseSQL s.selectedCommodity, s.selectedCommodity)]

def brandChunk (s : FilterState) : List Chunk :=
  if s.selectedBrand.isEmpty then [] else
    [(brandClauseSQL s.selectedBrand, s.selectedBrand)]

def violationChunk (s : FilterState) : List Chunk :=
  if s.selectedViolationGroup.isEmpty then [] else
    [(violationClauseSQL s.selectedViolationGroup, s.selectedViolationGroup)]

/-- Lines 533-535: `if selected_start and selected_end`. -/
def dateChunk (s : FilterState) : List Chunk :=
  match s.selectedStart, s.selectedEnd with
  | some a, some b => [("completed_date BETWEEN ? AND ?", [a, b])]
  | _, _ => []

/-- Lines 539-572: the search clause binds the pattern 8 times. -/
def searchChunk (s : FilterState) : List Chunk :=
  if s.searchTerm = "" then [] else
    [(searchClauseSQL, List.replicate 8 (likePattern s.searchTerm))]

/-- Lines 574-604. -/
def excludeChunk (s : FilterState) : List Chunk :=
  if s.excludeTerm = "" then [] else
    [(excludeClauseSQL, List.replicate 8 (likePattern s.excludeTerm))]

/-- The else-branch of lines 507-604: every active filter contributes one
AND-ed chunk, in the Python append order. -/
def normalChunks (s : FilterState) : List Chunk :=
  originChunk s ++ classTypeChunk s ++ commodityChunk s ++ brandChunk s ++
    violationChunk s ++ dateChunk s ++ searchChunk s ++ excludeChunk s

/-- Lines 503-604: either the COLA-ID fast path alone, or the normal chunks. -/
def buildClauses (s : FilterState) : List Chunk :=
  if (colaListCheck s).1 then
    [(colaIdClauseSQL (colaListCheck s).2, (colaListCheck s).2)]
  else normalChunks s

/-- The `where_clauses` list. -/
def whereClauses (s : FilterState) : List String :=
  (buildClauses s).map Prod.fst

/-- The `params` list: each chunk extends it in append order. -/
def queryParams (s : FilterState) : List String :=
  (buildClauses s).flatMap Prod.snd

/-- The AND-joined predicate text, `' AND '.join(where_clauses)`. -/
def predicateSQL (s : FilterState) : String :=
  joinSep " AND " (whereClauses s)

/-- Line 607: `('WHERE ' + ' AND '.join(where_clauses)) if where_clauses else ''`. -/
def whereSQL (s : FilterState) : String :=
  if (whereClauses s).isEmpty then "" else "WHERE " ++ predicateSQL s

/-- Line 610: the final query text. -/
def mainQuery (s : FilterState) : String :=
  "SELECT * from cola_images.vw_colas c " ++ whereSQL s ++ " ORDER BY completed_date DESC"

/-! ### Display truncation and results banner (lines 779-790, 928) -/

/-- Grouping step for Python's `f"{n:,}"`: commas every three digits,
working over the reversed digit list. -/
def groupRev : List Char → List Char
  | a :: b :: c :: d :: rest => a :: b :: c :: ',' :: groupRev (d :: rest)
  | l => l

/-- Python `f"{n:,}"` for a natural number. -/
def formatThousands (n : Nat) : String :=
  ⟨(groupRev (toString n).data.reverse).reverse⟩

/-- Line 928: `filtered[:100]` — at most 100 records are rendered. -/
def displayedRecords {α : Type} (filtered : List α) : List α :=
  filtered.take 100

/-- Lines 779-784: the banner before the limiting note; `explanation` stands
for the optional `" " + explanation_text` suffix. -/
def baseMessage {α : Type} (filtered : List α) (explanation : String) : String :=
  "Found " ++ formatThousands filtered.length ++ " COLA records" ++ explanation

/-- Lines 786-788: the limiting note is appended exactly when more than 100
records matched. -/
def resultsMessage {α : Type} (filtered : List α) (explanation : String) : String :=
  if 100 < filtered.length then
    baseMessage filtered explanation ++ ", limiting to 100 results displayed"
  else baseMessage filtered explanation

/-! ### Enrichment merge (lines 649-688)

An auxiliary batch result is a list of `(cola_id, parse result)` rows:
`some l` models a successful `json.loads`, `none` a parse failure (the
`except` branch stores `[]` for that id).  The dict built from the rows has
last-insertion-wins semantics; `.get(cola_id, [])` defaults a missing key
to the empty list. -/

/-- `images_data.get(cola_id, [])` over the dict built at lines 650-654:
a parse failure stored `[]`; a missing key defaults to `[]`. -/
def auxGet {J : Type} (rows : List (String × Option (List J))) (id : String) :
    List J :=
  match rows.reverse.find? (fun p => p.1 == id) with
  | some p => p.2.getD []
  | none => []

/-- A merged record: both enrichment lists are always bound (lines 685-688). -/
structure MergedRecord (J V : Type) where
  cola_id : String
  images : List J
  violations : List V

/-- Lines 684-688: every primary record gets `images` and `violations`. -/
def mergeRecords {J V : Type} (imgRows : List (String × Option (List J)))
    (vioRows : List (String × Option (List V))) (ids : List String) :
    List (MergedRecord J V) :=
  ids.map fun id => ⟨id, auxGet imgRows id, auxGet vioRows id⟩

/-! ### The compile/display pipeline split (lines 491-611, 690-691) -/

/-- The compiler's full output: query text and bound parameters. -/
def compiledQuery (s : FilterState) : String × List String :=
  (mainQuery s, queryParams s)

/-- The page pipeline with the in-memory shuffle abstracted as a function:
the compiled query is produced before and independently of it (line 691
shuffles only the fetched records). -/
def renderPipeline {R : Type} (shuffle : List R → List R) (s : FilterState)
    (recs : List R) : (String × List String) × List R :=
  (compiledQuery s, displayedRecords (shuffle recs))

/-! ### Flag lookup (`get_flag_icon`, lines 99-288) -/

/-- Whether `n` occurs as a contiguous segment of `h` (Python `in` on
strings, over the char lists). -/
def segIn (n : List Char) : List Char → Bool
  | [] => n.isEmpty
  | c :: t => n.isPrefixOf (c :: t) || segIn n t

/-- Python `needle in hay` for strings. -/
def substrB (needle hay : String) : Bool :=
  segIn needle.data hay.data

/-- Python truthiness plus `str(ct_source).lower().strip() == tag`
(lines 107, 112, 283): the empty string models a falsy value. -/
def sourceTagIs (ctSource tag : String) : Bool :=
  ctSource != "" && strTrim (strLower ctSource) == tag

/-- The static `flag_map` dict of `get_flag_icon` (lines 123-270), in its
insertion order — the order Python iterates it for partial matches. -/
def flagMap : List (String × String) :=
  [("united states", "🇺🇸"),
   ("usa", "🇺🇸"),
   ("us", "🇺🇸"),
   ("american", "🇺🇸"),
   ("france", "🇫🇷"),
   ("french", "🇫🇷"),
   ("italy", "🇮🇹"),
   ("italian", "🇮🇹"),
   ("spain", "🇪🇸"),
   ("spanish", "🇪🇸"),
   ("germany", "🇩🇪"),
   ("german", "🇩🇪"),
   ("portugal", "🇵🇹"),
   ("portuguese", "🇵🇹"),
   ("chile", "🇨🇱"),
   ("chilean", "🇨🇱"),
   ("argentina", "🇦🇷"),
   ("argentine", "🇦🇷"),
   ("australia", "🇦🇺"),
   ("australian", "🇦🇺"),
   ("new zealand", "🇳🇿"),
   ("canada", "🇨🇦"),
   ("canadian", "🇨🇦"),
   ("mexico", "🇲🇽"),
   ("mexican", "🇲🇽"),
   ("japan", "🇯🇵"),
   ("japanese", "🇯🇵"),
   ("south africa", "🇿🇦"),
   ("austria", "🇦🇹"),
   ("austrian", "🇦🇹"),
   ("hungary", "🇭🇺"),
   ("hungarian", "🇭🇺"),
   ("greece", "🇬🇷"),
   ("greek", "🇬🇷"),
   ("turkey", "🇹🇷"),
   ("turkish", "🇹🇷"),
   ("israel", "🇮🇱"),
   ("lebanon", "🇱🇧"),
   ("india", "🇮🇳"),
   ("china", "🇨🇳"),
   ("chinese", "🇨🇳"),
   ("korea", "🇰🇷"),
   ("korean", "🇰🇷"),
   ("south korea", "🇰🇷"),
   ("brazil", "🇧🇷"),
   ("brazilian", "🇧🇷"),
   ("peru", "🇵🇪"),
   ("peruvian", "🇵🇪"),
   ("uruguay", "🇺🇾"),
   ("colombia", "🇨🇴"),
   ("colombian", "🇨🇴"),
   ("ecuador", "🇪🇨"),
   ("bolivia", "🇧🇴"),
   ("venezuela", "🇻🇪"),
   ("armenia", "🇦🇲"),
   ("armenian", "🇦🇲"),
   ("georgia", "🇬🇪"),
   ("georgian", "🇬🇪"),
   ("moldova", "🇲🇩"),
   ("ukraine", "🇺🇦"),
   ("ukrainian", "🇺🇦"),
   ("russia", "🇷🇺"),
   ("russian", "🇷🇺"),
   ("poland", "🇵🇱"),
   ("polish", "🇵🇱"),
   ("czech republic", "🇨🇿"),
   ("czech", "🇨🇿"),
   ("slovakia", "🇸🇰"),
   ("slovak", "🇸🇰"),
   ("slovenia", "🇸🇮"),
   ("croatia", "🇭🇷"),
   ("croatian", "🇭🇷"),
   ("serbia", "🇷🇸"),
   ("serbian", "🇷🇸"),
   ("bulgaria", "🇧🇬"),
   ("bulgarian", "🇧🇬"),
   ("romania", "🇷🇴"),
   ("romanian", "🇷🇴"),
   ("ireland", "🇮🇪"),
   ("irish", "🇮🇪"),
   ("scotland", "🏴"),
   ("scottish", "🏴"),
   ("england", "🏴"),
   ("english", "🏴"),
   ("wales", "🏴"),
   ("welsh", "🏴"),
   ("united kingdom", "🇬🇧"),
   ("uk", "🇬🇧"),
   ("britain", "🇬🇧"),
   ("british", "🇬🇧"),
   ("netherlands", "🇳🇱"),
   ("dutch", "🇳🇱"),
   ("belgium", "🇧🇪"),
   ("belgian", "🇧🇪"),
   ("switzerland", "🇨🇭"),
   ("swiss", "🇨🇭"),
   ("denmark", "🇩🇰"),
   ("danish", "🇩🇰"),
   ("sweden", "🇸🇪"),
   ("swedish", "🇸🇪"),
   ("norway", "🇳🇴"),
   ("norwegian", "🇳🇴"),
   ("finland", "🇫🇮"),
   ("finnish", "🇫🇮"),
   ("iceland", "🇮🇸"),
   ("icelandic", "🇮🇸"),
   ("luxembourg", "🇱🇺"),
   ("malta", "🇲🇹"),
   ("cyprus", "🇨🇾"),
   ("estonia", "🇪🇪"),
   ("latvia", "🇱🇻"),
   ("lithuania", "🇱🇹"),
   ("morocco", "🇲🇦"),
   ("moroccan", "🇲🇦"),
   ("tunisia", "🇹🇳"),
   ("algeria", "🇩🇿"),
   ("egypt", "🇪🇬"),
   ("egyptian", "🇪🇬"),
   ("ethiopia", "🇪🇹"),
   ("kenya", "🇰🇪"),
   ("madagascar", "🇲🇬"),
   ("thailand", "🇹🇭"),
   ("thai", "🇹🇭"),
   ("vietnam", "🇻🇳"),
   ("vietnamese", "🇻🇳"),
   ("cambodia", "🇰🇭"),
   ("laos", "🇱🇦"),
   ("myanmar", "🇲🇲"),
   ("philippines", "🇵🇭"),
   ("filipino", "🇵🇭"),
   ("indonesia", "🇮🇩"),
   ("indonesian", "🇮🇩"),
   ("malaysia", "🇲🇾"),
   ("singapore", "🇸🇬"),
   ("sri lanka", "🇱🇰"),
   ("bangladesh", "🇧🇩"),
   ("pakistan", "🇵🇰"),
   ("nepal", "🇳🇵"),
   ("bhutan", "🇧🇹"),
   ("mongolia", "🇲🇳"),
   ("taiwan", "🇹🇼"),
   ("hong kong", "🇭🇰"),
   ("macau", "🇲🇴")  ]

/-- `get_flag_icon(origin, ct_source)` (lines 99-288): domestic override,
then (for a truthy origin) a `domestic` substring check, exact table
lookup, first partial match in table order, and the globe fallbacks. -/
def getFlagIcon (origin ctSource : String) : String :=
  if sourceTagIs ctSource "domestic" then "🇺🇸"
  else if origin == "" then
    (if sourceTagIs ctSource "import" then "🌍" else "")
  else
    let originLower := strTrim (strLower origin)
    if substrB "domestic" originLower then "🇺🇸"
    else
      match flagMap.find? (fun p => p.1 == originLower) with
      | some p => p.2
      | none =>
        match flagMap.find? (fun p => substrB p.1 originLower) with
        | some p => p.2
        | none =>
          if sourceTagIs ctSource "import" then "🌍"
          else if originLower != "" &&
              !(["unknown", "n/a", "", "none"].contains originLower) then "🌍"
          else ""

/-- Modelled from the spec claim's words, for comparison with the code:
the table entry whose country name occurs in the lowered origin and is
the longest (most specific) such name, scanning the table once. -/
def longestCountryMatch (originLower : String) : Option (String × String) :=
  (flagMap.filter fun p => substrB p.1 originLower).foldl
    (fun best p =>
      match best with
      | none => some p
      | some q => if q.1.length < p.1.length then some p else some q)
    none

/-! ### Helper lemmas: placeholder counting -/

theorem countQ_append (a b : String) : countQ (a ++ b) = countQ a + countQ b := by
  show (a.data ++ b.data).count '?' = _
  exact List.count_append ..

theorem countQ_joinSep (sep : String) (h : countQ sep = 0) :
    ∀ l : List String, countQ (joinSep sep l) = (l.map countQ).sum
  | [] => by simp [joinSep, countQ]
  | [x] => by simp [joinSep]
  | x :: y :: xs => by
    rw [joinSep, countQ_append, countQ_append, h, countQ_joinSep sep h (y :: xs)]
    simp

theorem countQ_placeholders (xs : List String) :
    countQ (placeholders xs) = xs.length := by
  rw [placeholders, countQ_joinSep "," rfl]
  induction xs with
  | nil => rfl
  | cons x t ih =>
    simp only [List.map_cons, List.sum_cons, ih, List.length_cons]
    have h1 : countQ "?" = 1 := rfl
    omega

theorem countQ_colaIdClauseSQL (ids : List String) :
    countQ (colaIdClauseSQL ids) = ids.length := by
  rw [colaIdClauseSQL, countQ_append, countQ_append, countQ_placeholders]
  have h1 : countQ "c.cola_id IN (" = 0 := rfl
  have h2 : countQ ")" = 0 := rfl
  omega

theorem countQ_originClauseSQL (sel : List String) :
    countQ (originClauseSQL sel) = sel.length := by
  rw [originClauseSQL, countQ_append, countQ_append, countQ_placeholders]
  have h1 : countQ "COALESCE(c.origin, 'UNKNOWN') IN (" = 0 := rfl
  have h2 : countQ ")" = 0 := rfl
  omega

theorem countQ_classTypeClauseSQL (sel : List String) :
    countQ (classTypeClauseSQL sel) = sel.length := by
  rw [classTypeClauseSQL, countQ_append, countQ_append, countQ_placeholders]
  have h1 : countQ "COALESCE(c.class_type, 'UNKNOWN') IN (" = 0 := rfl
  have h2 : countQ ")" = 0 := rfl
  omega

theorem countQ_commodityClauseSQL (sel : List String) :
    countQ (commodityClauseSQL sel) = sel.length := by
  rw [commodityClauseSQL, countQ_append, countQ_append, countQ_placeholders]
  have h1 : countQ "c.ct_commodity IN (" = 0 := rfl
  have h2 : countQ ")" = 0 := rfl
  omega

theorem countQ_brandClauseSQL (sel : List String) :
    countQ (brandClauseSQL sel) = sel.length := by
  rw [brandClauseSQL, countQ_append, countQ_append, countQ_placeholders]
  have h1 : countQ "COALESCE(c.brand_name, 'UNKNOWN') IN (" = 0 := rfl
  have h2 : countQ ")" = 0 := rfl
  omega

set_option maxRecDepth 100000 in
theorem countQ_violationClauseSQL (sel : List String) :
    countQ (violationClauseSQL sel) = sel.length := by
  rw [violationClauseSQL, countQ_append, countQ_append, countQ_placeholders]
  have h1 : countQ "\n                EXISTS (\n                    SELECT 1 FROM cola_images.vw_cola_violations_list v \n                    WHERE v.cola_id = c.cola_id \n                    AND v.violation_group IN (" = 0 := rfl
  have h2 : countQ ")\n                )\n            " = 0 := rfl
  omega

set_option maxRecDepth 100000 in
theorem countQ_searchClauseSQL : countQ searchClauseSQL = 8 := rfl

set_option maxRecDepth 100000 in
theorem countQ_excludeClauseSQL : countQ excludeClauseSQL = 8 := rfl

/-- Membership in an optional singleton chunk pins the element down. -/
theorem eq_of_mem_ite_singleton {α : Type} {P : Prop} [Decidable P] {x c : α}
    (h : c ∈ (if P then ([] : List α) else [x])) : c = x := by
  split at h
  · simp at h
  · simpa using h

/-- Every chunk the compiler appends has as many `?` placeholders as the
parameters it pushes. -/
theorem buildClauses_chunkOk (s : FilterState) :
    ∀ c ∈ buildClauses s, countQ c.1 = c.2.length := by
  intro c hc
  rw [buildClauses] at hc
  split at hc
  · have hcx : c = (colaIdClauseSQL (colaListCheck s).2, (colaListCheck s).2) := by
      simpa using hc
    rw [hcx]
    exact countQ_colaIdClauseSQL _
  · rw [normalChunks] at hc
    simp only [List.mem_append] at hc
    rcases hc with ((((((h | h) | h) | h) | h) | h) | h) | h
    · rw [eq_of_mem_ite_singleton h]
      exact countQ_originClauseSQL _
    · rw [eq_of_mem_ite_singleton h]
      exact countQ_classTypeClauseSQL _
    · rw [eq_of_mem_ite_singleton h]
      exact countQ_commodityClauseSQL _
    · rw [eq_of_mem_ite_singleton h]
      exact countQ_brandClauseSQL _
    · rw [eq_of_mem_ite_singleton h]
      exact countQ_violationClauseSQL _
    · rw [dateChunk] at h
      rcases hs : s.selectedStart with _ | a <;> rcases he : s.selectedEnd with _ | b <;>
        rw [hs, he] at h <;> simp at h
      rw [h]
      rfl
    · rw [searchChunk] at h
      split at h
      · simp at h
      · have hcx : c = (searchClauseSQL, List.replicate 8 (likePattern s.searchTerm)) := by
          simpa using h
        rw [hcx]
        simpa using countQ_searchClauseSQL
    · rw [excludeChunk] at h
      split at h
      · simp at h
      · have hcx : c = (excludeClauseSQL, List.replicate 8 (likePattern s.excludeTerm)) := by
          simpa using h
        rw [hcx]
        simpa using countQ_excludeClauseSQL

/-- The AND-join of chunk clauses has as many placeholders as the chunks push
parameters. -/
theorem countQ_chunks (l : List Chunk) (h : ∀ c ∈ l, countQ c.1 = c.2.length) :
    countQ (joinSep " AND " (l.map Prod.fst)) = (l.flatMap Prod.snd).length := by
  rw [countQ_joinSep " AND " rfl]
  induction l with
  | nil => rfl
  | cons x t ih =>
    simp only [List.map_cons, List.sum_cons, List.flatMap_cons, List.length_append]
    rw [h x (List.mem_cons_self x t), ih fun c hc => h c (List.mem_cons_of_mem x hc)]

/-! ### Claim theorems -/

/-- C10: for every filter state, fast path or not, the number of `?`
placeholders in the generated WHERE clause equals the length of the
parameter list. -/
theorem placeholderCountMatchesParams (s : FilterState) :
    countQ (whereSQL s) = (queryParams s).length := by
  rw [whereSQL]
  split
  · rename_i h
    have hb : buildClauses s = [] := by
      rw [whereClauses] at h
      rcases hbc : buildClauses s with _ | ⟨a, t⟩
      · rfl
      · rw [hbc] at h
        simp at h
    rw [queryParams, hb]
    rfl
  · rw [countQ_append, predicateSQL, whereClauses, queryParams,
      countQ_chunks (buildClauses s) (buildClauses_chunkOk s)]
    have h0 : countQ "WHERE " = 0 := rfl
    omega

/-- C1: when every comma-separated token of the search input is, after
stripping, exactly 14 digits, the WHERE clause is exactly the one
`c.cola_id IN (...)` clause with one placeholder per token, the parameters
are the token list in order, and no other filter contributes anything. -/
theorem colaIdFastPathExclusive (s : FilterState)
    (hne : (splitChars ',' s.searchTerm.data).map trimChars ≠ [])
    (hall : ∀ p ∈ (splitChars ',' s.searchTerm.data).map trimChars,
        p.length = 14 ∧ p.all Char.isDigit = true) :
    whereClauses s =
      [colaIdClauseSQL (((splitChars ',' s.searchTerm.data).map trimChars).map
        fun l => String.mk l)] ∧
    queryParams s =
      ((splitChars ',' s.searchTerm.data).map trimChars).map (fun l => String.mk l) ∧
    countQ (colaIdClauseSQL (((splitChars ',' s.searchTerm.data).map trimChars).map
        fun l => String.mk l)) =
      ((splitChars ',' s.searchTerm.data).map trimChars).length := by
  have hs : ¬ s.searchTerm = "" := by
    intro h
    have hmem : ([] : List Char) ∈ (splitChars ',' s.searchTerm.data).map trimChars := by
      rw [h]
      decide
    have h14 := (hall [] hmem).1
    simp at h14
  have hallb : ((splitChars ',' s.searchTerm.data).map trimChars).all
      (fun p => p.length == 14 && p.all Char.isDigit) = true := by
    rw [List.all_eq_true]
    intro p hp
    rw [Bool.and_eq_true, beq_iff_eq]
    exact ⟨(hall p hp).1, (hall p hp).2⟩
  have hempty : ((splitChars ',' s.searchTerm.data).map trimChars).isEmpty = false := by
    rcases hp : (splitChars ',' s.searchTerm.data).map trimChars with _ | ⟨a, t⟩
    · exact absurd hp hne
    · rfl
  have hlist : isColaIdList s.searchTerm =
      (true, ((splitChars ',' s.searchTerm.data).map trimChars).map fun l => String.mk l) := by
    rw [isColaIdList, if_neg hs]
    simp only [hallb, hempty, if_true, Bool.false_eq_true, if_false]
  have hcheck : colaListCheck s =
      (true, ((splitChars ',' s.searchTerm.data).map trimChars).map fun l => String.mk l) := by
    rw [colaListCheck, if_neg hs, hlist]
  refine ⟨?_, ?_, ?_⟩
  · simp [whereClauses, buildClauses, hcheck]
  · simp [queryParams, buildClauses, hcheck]
  · rw [countQ_colaIdClauseSQL, List.length_map]

/-- C1 witness: a two-id search with every other filter active still compiles
to the bare IN-list with the two ids as the only parameters. -/
theorem colaIdFastPathExclusive_witness :
    whereClauses
        { searchTerm := "12345678901234, 98765432109876", excludeTerm := "beer",
          selectedOrigin := ["France"], selectedClassType := ["TABLE RED WINE"],
          selectedCommodity := ["wine"], selectedBrand := ["ACME"],
          selectedViolationGroup := ["labeling"],
          selectedStart := some "2024-01-01", selectedEnd := some "2024-01-31" } =
      ["c.cola_id IN (?,?)"] ∧
    queryParams
        { searchTerm := "12345678901234, 98765432109876", excludeTerm := "beer",
          selectedOrigin := ["France"], selectedClassType := ["TABLE RED WINE"],
          selectedCommodity := ["wine"], selectedBrand := ["ACME"],
          selectedViolationGroup := ["labeling"],
          selectedStart := some "2024-01-01", selectedEnd := some "2024-01-31" } =
      ["12345678901234", "98765432109876"] := by
  have h := colaIdFastPathExclusive
    { searchTerm := "12345678901234, 98765432109876", excludeTerm := "beer",
      selectedOrigin := ["France"], selectedClassType := ["TABLE RED WINE"],
      selectedCommodity := ["wine"], selectedBrand := ["ACME"],
      selectedViolationGroup := ["labeling"],
      selectedStart := some "2024-01-01", selectedEnd := some "2024-01-31" }
    (by decide) (by decide)
  exact ⟨h.1, h.2.1⟩

/-- C2: a search input with a token that is not exactly 14 digits after
stripping defeats the fast path: `is_cola_id_list` yields `(False, [])` and
the compiler takes the normal branch, whose search chunk (for a non-empty
term) is the substring clause, alongside all other active filters. -/
theorem nonColaListNormalPath (s : FilterState)
    (hbad : ∃ p ∈ (splitChars ',' s.searchTerm.data).map trimChars,
        ¬(p.length = 14 ∧ p.all Char.isDigit = true)) :
    isColaIdList s.searchTerm = (false, []) ∧
    buildClauses s = normalChunks s ∧
    (s.searchTerm ≠ "" →
      searchChunk s = [(searchClauseSQL, List.replicate 8 (likePattern s.searchTerm))]) := by
  obtain ⟨p, hp, hnp⟩ := hbad
  have hlist : isColaIdList s.searchTerm = (false, []) := by
    by_cases hs : s.searchTerm = ""
    · rw [isColaIdList, if_pos hs]
    · have hallf : ((splitChars ',' s.searchTerm.data).map trimChars).all
          (fun q => q.length == 14 && q.all Char.isDigit) = false := by
        cases hb : ((splitChars ',' s.searchTerm.data).map trimChars).all
            (fun q => q.length == 14 && q.all Char.isDigit)
        · rfl
        · have := List.all_eq_true.mp hb p hp
          rw [Bool.and_eq_true, beq_iff_eq] at this
          exact absurd this hnp
      rw [isColaIdList, if_neg hs]
      simp only [hallf, Bool.false_eq_true, if_false]
  have hcheck : colaListCheck s = (false, []) := by
    rw [colaListCheck]
    split
    · rfl
    · exact hlist
  refine ⟨hlist, ?_, fun hs => by rw [searchChunk, if_neg hs]⟩
  rw [buildClauses, hcheck]
  simp

/-- C2 witness: the term `wine, 12345678901234` (one non-14-digit token)
compiles through the normal branch with its substring chunk. -/
theorem nonColaListNormalPath_witness :
    isColaIdList "wine, 12345678901234" = (false, []) ∧
    buildClauses
        { searchTerm := "wine, 12345678901234", excludeTerm := "",
          selectedOrigin := [], selectedClassType := [], selectedCommodity := [],
          selectedBrand := [], selectedViolationGroup := [],
          selectedStart := none, selectedEnd := none } =
      normalChunks
        { searchTerm := "wine, 12345678901234", excludeTerm := "",
          selectedOrigin := [], selectedClassType := [], selectedCommodity := [],
          selectedBrand := [], selectedViolationGroup := [],
          selectedStart := none, selectedEnd := none } ∧
    searchChunk
        { searchTerm := "wine, 12345678901234", excludeTerm := "",
          selectedOrigin := [], selectedClassType := [], selectedCommodity := [],
          selectedBrand := [], selectedViolationGroup := [],
          selectedStart := none, selectedEnd := none } =
      [(searchClauseSQL, List.replicate 8 "%wine, 12345678901234%")] := by
  have h := nonColaListNormalPath
    { searchTerm := "wine, 12345678901234", excludeTerm := "",
      selectedOrigin := [], selectedClassType := [], selectedCommodity := [],
      selectedBrand := [], selectedViolationGroup := [],
      selectedStart := none, selectedEnd := none }
    ⟨"wine".data, by decide, by decide⟩
  exact ⟨h.1, h.2.1, by rw [h.2.2 (by decide)]; rfl⟩

set_option maxRecDepth 100000 in
/-- C3 counterexample: with commodity `["wine"]` and violation group
`["labeling"]` active (fast path off), the commodity clause is a direct
`c.ct_commodity IN (?)` — not the claimed `COALESCE(..., 'UNKNOWN')`
form — and the violation-group clause is an `EXISTS` subquery, not a
record-level `field IN (?)`. -/
theorem categoricalClausesCounterexample :
    whereClauses
        { searchTerm := "", excludeTerm := "", selectedOrigin := [],
          selectedClassType := [], selectedCommodity := ["wine"],
          selectedBrand := [], selectedViolationGroup := ["labeling"],
          selectedStart := none, selectedEnd := none } =
      [commodityClauseSQL ["wine"], violationClauseSQL ["labeling"]] ∧
    commodityClauseSQL ["wine"] = "c.ct_commodity IN (?)" ∧
    commodityClauseSQL ["wine"] ≠ "COALESCE(c.ct_commodity, 'UNKNOWN') IN (?)" ∧
    violationClauseSQL ["labeling"] ≠ "COALESCE(violation_group, 'UNKNOWN') IN (?)" ∧
    substrB "EXISTS" (violationClauseSQL ["labeling"]) = true := by
  refine ⟨rfl, rfl, by decide, by decide, by decide⟩

/-- C3 amended: origin, class type and brand are coalesced to `'UNKNOWN'`
before the IN comparison; commodity is compared directly without COALESCE;
violation group becomes an `EXISTS` subquery over the violations view with
`violation_group IN (...)` inside.  Every one of these clauses carries one
`?` per selected value and pushes exactly the selected values. -/
theorem categoricalClausesAmended (s : FilterState) :
    (s.selectedOrigin ≠ [] →
      originChunk s = [(originClauseSQL s.selectedOrigin, s.selectedOrigin)] ∧
      originClauseSQL s.selectedOrigin =
        "COALESCE(c.origin, 'UNKNOWN') IN (" ++ placeholders s.selectedOrigin ++ ")" ∧
      countQ (originClauseSQL s.selectedOrigin) = s.selectedOrigin.length) ∧
    (s.selectedClassType ≠ [] →
      classTypeChunk s = [(classTypeClauseSQL s.selectedClassType, s.selectedClassType)] ∧
      classTypeClauseSQL s.selectedClassType =
        "COALESCE(c.class_type, 'UNKNOWN') IN (" ++ placeholders s.selectedClassType ++ ")" ∧
      countQ (classTypeClauseSQL s.selectedClassType) = s.selectedClassType.length) ∧
    (s.selectedBrand ≠ [] →
      brandChunk s = [(brandClauseSQL s.selectedBrand, s.selectedBrand)] ∧
      brandClauseSQL s.selectedBrand =
        "COALESCE(c.brand_name, 'UNKNOWN') IN (" ++ placeholders s.selectedBrand ++ ")" ∧
      countQ (brandClauseSQL s.selectedBrand) = s.selectedBrand.length) ∧
    (s.selectedCommodity ≠ [] →
      commodityChunk s = [(commodityClauseSQL s.selectedCommodity, s.selectedCommodity)] ∧
      commodityClauseSQL s.selectedCommodity =
        "c.ct_commodity IN (" ++ placeholders s.selectedCommodity ++ ")" ∧
      countQ (commodityClauseSQL s.selectedCommodity) = s.selectedCommodity.length) ∧
    (s.selectedViolationGroup ≠ [] →
      violationChunk s =
        [(violationClauseSQL s.selectedViolationGroup, s.selectedViolationGroup)] ∧
      countQ (violationClauseSQL s.selectedViolationGroup) =
        s.selectedViolationGroup.length) := by
  refine ⟨fun h => ⟨?_, rfl, countQ_originClauseSQL _⟩,
    fun h => ⟨?_, rfl, countQ_classTypeClauseSQL _⟩,
    fun h => ⟨?_, rfl, countQ_brandClauseSQL _⟩,
    fun h => ⟨?_, rfl, countQ_commodityClauseSQL _⟩,
    fun h => ⟨?_, countQ_violationClauseSQL _⟩⟩ <;>
    simp [originChunk, classTypeChunk, brandChunk, commodityChunk, violationChunk, h]

/-- C3 amended witness: all five categorical filters active at once. -/
theorem categoricalClausesAmended_witness :
    originChunk
        { searchTerm := "", excludeTerm := "", selectedOrigin := ["France"],
          selectedClassType := ["TABLE RED WINE"], selectedCommodity := ["wine"],
          selectedBrand := ["ACME"], selectedViolationGroup := ["labeling"],
          selectedStart := none, selectedEnd := none } =
      [("COALESCE(c.origin, 'UNKNOWN') IN (?)", ["France"])] ∧
    classTypeChunk
        { searchTerm := "", excludeTerm := "", selectedOrigin := ["France"],
          selectedClassType := ["TABLE RED WINE"], selectedCommodity := ["wine"],
          selectedBrand := ["ACME"], selectedViolationGroup := ["labeling"],
          selectedStart := none, selectedEnd := none } =
      [("COALESCE(c.class_type, 'UNKNOWN') IN (?)", ["TABLE RED WINE"])] ∧
    commodityChunk
        { searchTerm := "", excludeTerm := "", selectedOrigin := ["France"],
          selectedClassType := ["TABLE RED WINE"], selectedCommodity := ["wine"],
          selectedBrand := ["ACME"], selectedViolationGroup := ["labeling"],
          selectedStart := none, selectedEnd := none } =
      [("c.ct_commodity IN (?)", ["wine"])] ∧
    countQ (violationClauseSQL ["labeling"]) = 1 := by
  have h := categoricalClausesAmended
    { searchTerm := "", excludeTerm := "", selectedOrigin := ["France"],
      selectedClassType := ["TABLE RED WINE"], selectedCommodity := ["wine"],
      selectedBrand := ["ACME"], selectedViolationGroup := ["labeling"],
      selectedStart := none, selectedEnd := none }
  exact ⟨(h.1 (by decide)).1, (h.2.1 (by decide)).1, (h.2.2.2.1 (by decide)).1,
    (h.2.2.2.2 (by decide)).2⟩

/-- C4: off the fast path, a non-empty search term appends exactly one
clause — the OR of the five base-column substring conditions and the two
`EXISTS` sub-predicates — binding the lowercased `%`-wrapped pattern 8
times; a non-empty exclude phrase appends the same OR negated as
`NOT (...)`, also binding its pattern 8 times. -/
theorem searchAndExcludeClauses (s : FilterState)
    (hfast : (colaListCheck s).1 = false) :
    buildClauses s = normalChunks s ∧
    (s.searchTerm ≠ "" →
      searchChunk s = [(searchClauseSQL, List.replicate 8 (likePattern s.searchTerm))] ∧
      searchClauseSQL = "(" ++ joinSep " OR " searchConditions ++ ")" ∧
      likePattern s.searchTerm = "%" ++ strLower s.searchTerm ++ "%" ∧
      countQ searchClauseSQL = 8) ∧
    (s.excludeTerm ≠ "" →
      excludeChunk s = [(excludeClauseSQL, List.replicate 8 (likePattern s.excludeTerm))] ∧
      excludeClauseSQL = "NOT (" ++ joinSep " OR " searchConditions ++ ")" ∧
      countQ excludeClauseSQL = 8) := by
  refine ⟨?_, fun h => ⟨?_, rfl, rfl, countQ_searchClauseSQL⟩,
    fun h => ⟨?_, rfl, countQ_excludeClauseSQL⟩⟩
  · rw [buildClauses, hfast]
    simp
  · rw [searchChunk, if_neg h]
  · rw [excludeChunk, if_neg h]

/-- C4 witness: search `cabernet`, exclude `rosé`. -/
theorem searchAndExcludeClauses_witness :
    searchChunk
        { searchTerm := "Cabernet", excludeTerm := "Rosé", selectedOrigin := [],
          selectedClassType := [], selectedCommodity := [], selectedBrand := [],
          selectedViolationGroup := [], selectedStart := none, selectedEnd := none } =
      [(searchClauseSQL, List.replicate 8 "%cabernet%")] ∧
    excludeChunk
        { searchTerm := "Cabernet", excludeTerm := "Rosé", selectedOrigin := [],
          selectedClassType := [], selectedCommodity := [], selectedBrand := [],
          selectedViolationGroup := [], selectedStart := none, selectedEnd := none } =
      [(excludeClauseSQL, List.replicate 8 "%rosé%")] ∧
    countQ searchClauseSQL = 8 ∧ countQ excludeClauseSQL = 8 := by
  have h := searchAndExcludeClauses
    { searchTerm := "Cabernet", excludeTerm := "Rosé", selectedOrigin := [],
      selectedClassType := [], selectedCommodity := [], selectedBrand := [],
      selectedViolationGroup := [], selectedStart := none, selectedEnd := none }
    (by decide)
  refine ⟨by rw [(h.2.1 (by decide)).1]; rfl, by rw [(h.2.2 (by decide)).1]; rfl,
    (h.2.1 (by decide)).2.2.2, (h.2.2 (by decide)).2.2⟩

set_option maxRecDepth 100000 in
/-- C5 counterexample: for date range 2024-01-01..2024-01-31 with
commodity `["wine"]` and empty search, the parameters are exactly
`['wine','2024-01-01','2024-01-31']`, but the generated predicate text is
`c.ct_commodity IN (?) AND completed_date BETWEEN ? AND ?` — the commodity
column is `c.ct_commodity`, not the claimed bare `commodity`. -/
theorem examplePredicateCounterexample :
    predicateSQL
        { searchTerm := "", excludeTerm := "", selectedOrigin := [],
          selectedClassType := [], selectedCommodity := ["wine"],
          selectedBrand := [], selectedViolationGroup := [],
          selectedStart := some "2024-01-01", selectedEnd := some "2024-01-31" } ≠
      "commodity IN (?) AND completed_date BETWEEN ? AND ?" ∧
    predicateSQL
        { searchTerm := "", excludeTerm := "", selectedOrigin := [],
          selectedClassType := [], selectedCommodity := ["wine"],
          selectedBrand := [], selectedViolationGroup := [],
          selectedStart := some "2024-01-01", selectedEnd := some "2024-01-31" } =
      "c.ct_commodity IN (?) AND completed_date BETWEEN ? AND ?" := by
  refine ⟨by decide, rfl⟩

set_option maxRecDepth 100000 in
/-- C5 amended: the same filter state compiles to the predicate
`c.ct_commodity IN (?) AND completed_date BETWEEN ? AND ?` with parameters
`['wine','2024-01-01','2024-01-31']` in that order. -/
theorem examplePredicateAmended :
    predicateSQL
        { searchTerm := "", excludeTerm := "", selectedOrigin := [],
          selectedClassType := [], selectedCommodity := ["wine"],
          selectedBrand := [], selectedViolationGroup := [],
          selectedStart := some "2024-01-01", selectedEnd := some "2024-01-31" } =
      "c.ct_commodity IN (?) AND completed_date BETWEEN ? AND ?" ∧
    queryParams
        { searchTerm := "", excludeTerm := "", selectedOrigin := [],
          selectedClassType := [], selectedCommodity := ["wine"],
          selectedBrand := [], selectedViolationGroup := [],
          selectedStart := some "2024-01-01", selectedEnd := some "2024-01-31" } =
      ["wine", "2024-01-01", "2024-01-31"] := by
  exact ⟨rfl, rfl⟩

/-- C6: more than 100 matches render exactly the first 100 of the shuffled
list while the banner reports the true total and gains the limiting note;
100 or fewer render in full with no note.  `baseMessage` always reports
`filtered.length`, the true match count. -/
theorem displayTruncationAndCount {α : Type} (filtered : List α) (expl : String) :
    baseMessage filtered expl =
      "Found " ++ formatThousands filtered.length ++ " COLA records" ++ expl ∧
    (100 < filtered.length →
      displayedRecords filtered = filtered.take 100 ∧
      (displayedRecords filtered).length = 100 ∧
      resultsMessage filtered expl =
        baseMessage filtered expl ++ ", limiting to 100 results displayed") ∧
    (filtered.length ≤ 100 →
      displayedRecords filtered = filtered ∧
      resultsMessage filtered expl = baseMessage filtered expl) := by
  refine ⟨rfl, fun h => ⟨rfl, ?_, ?_⟩, fun h => ⟨?_, ?_⟩⟩
  · rw [displayedRecords, List.length_take]
    omega
  · rw [resultsMessage, if_pos h]
  · rw [displayedRecords]
    exact List.take_of_length_le h
  · rw [resultsMessage, if_neg (by omega)]

/-- C6 witness: 101 records are capped with the note, 5 are not. -/
theorem displayTruncationAndCount_witness :
    displayedRecords (List.range 101) = (List.range 101).take 100 ∧
    (displayedRecords (List.range 101)).length = 100 ∧
    resultsMessage (List.range 101) "" =
      baseMessage (List.range 101) "" ++ ", limiting to 100 results displayed" ∧
    displayedRecords (List.range 5) = List.range 5 ∧
    resultsMessage (List.range 5) "" = baseMessage (List.range 5) "" ∧
    baseMessage (List.range 101) "" = "Found 101 COLA records" := by
  have h1 := (displayTruncationAndCount (List.range 101) "").2.1 (by simp)
  have h2 := (displayTruncationAndCount (List.range 5) "").2.2 (by simp)
  exact ⟨h1.1, h1.2.1, h1.2.2, h2.1, h2.2, by rfl⟩

/-- A key absent from every row looks up to the empty list. -/
theorem auxGet_eq_nil_of_absent {J : Type} (rows : List (String × Option (List J)))
    (id : String) (h : ∀ p ∈ rows, p.1 ≠ id) : auxGet rows id = [] := by
  rw [auxGet]
  have hf : rows.reverse.find? (fun p => p.1 == id) = none := by
    rw [List.find?_eq_none]
    intro p hp
    simpa using h p (List.mem_reverse.mp hp)
  rw [hf]

/-- A parse-failure row that is the last row for its key stores `[]`. -/
theorem auxGet_parse_failure {J : Type} (A B : List (String × Option (List J)))
    (idf : String) (h : ∀ p ∈ B, p.1 ≠ idf) :
    auxGet (A ++ (idf, none) :: B) idf = [] := by
  rw [auxGet]
  have hrev : (A ++ (idf, none) :: B).reverse =
      B.reverse ++ (idf, (none : Option (List J))) :: A.reverse := by
    simp
  rw [hrev, List.find?_append]
  have hB : B.reverse.find? (fun p => p.1 == idf) = none := by
    rw [List.find?_eq_none]
    intro p hp
    simpa using h p (List.mem_reverse.mp hp)
  rw [hB, List.find?_cons_of_pos _ (by simp)]
  rfl

/-- A parse-failure row does not disturb any other key's lookup. -/
theorem auxGet_parse_failure_isolated {J : Type} (A B : List (String × Option (List J)))
    (idf id2 : String) (h : id2 ≠ idf) :
    auxGet (A ++ (idf, none) :: B) id2 = auxGet (A ++ B) id2 := by
  rw [auxGet, auxGet]
  have hrev : (A ++ (idf, none) :: B).reverse =
      B.reverse ++ (idf, (none : Option (List J))) :: A.reverse := by
    simp
  have hrev2 : (A ++ B).reverse = B.reverse ++ A.reverse := by
    simp
  rw [hrev, hrev2, List.find?_append, List.find?_append,
    List.find?_cons_of_neg _ (by simpa using fun he => h he.symm)]

/-- C7: the merge always binds both enrichment lists on every record; an
identifier with no auxiliary row gets `[]` (never a missing key); and a
JSON parse failure degrades only that identifier's list to `[]`, leaving
every other record's lookup unchanged. -/
theorem enrichmentMergeTotalAndRobust {J V : Type}
    (imgRows : List (String × Option (List J)))
    (vioRows : List (String × Option (List V))) (ids : List String) :
    mergeRecords imgRows vioRows ids =
      (ids.map fun id => ⟨id, auxGet imgRows id, auxGet vioRows id⟩) ∧
    (∀ id, (∀ p ∈ imgRows, p.1 ≠ id) → auxGet imgRows id = []) ∧
    (∀ id, (∀ p ∈ vioRows, p.1 ≠ id) → auxGet vioRows id = []) ∧
    (∀ (A B : List (String × Option (List J))) (idf : String),
      imgRows = A ++ (idf, none) :: B → (∀ p ∈ B, p.1 ≠ idf) →
      auxGet imgRows idf = []) ∧
    (∀ (A B : List (String × Option (List J))) (idf id2 : String),
      imgRows = A ++ (idf, none) :: B → id2 ≠ idf →
      auxGet imgRows id2 = auxGet (A ++ B) id2) := by
  refine ⟨rfl, fun id h => auxGet_eq_nil_of_absent imgRows id h,
    fun id h => auxGet_eq_nil_of_absent vioRows id h,
    fun A B idf he h => ?_, fun A B idf id2 he h => ?_⟩
  · rw [he]
    exact auxGet_parse_failure A B idf h
  · rw [he]
    exact auxGet_parse_failure_isolated A B idf id2 h

/-- C7 witness: id `B` has a malformed row (degrades to `[]`), id `C` has no
row (defaults to `[]`), id `A` keeps its parsed list. -/
theorem enrichmentMergeTotalAndRobust_witness :
    auxGet [("A", some [1]), ("B", (none : Option (List Nat)))] "C" = [] ∧
    auxGet [("A", some [1]), ("B", (none : Option (List Nat)))] "B" = [] ∧
    auxGet [("A", some [1]), ("B", (none : Option (List Nat)))] "A" = [1] ∧
    mergeRecords [("A", some [1]), ("B", (none : Option (List Nat)))]
        ([] : List (String × Option (List Nat))) ["A", "B", "C"] =
      [⟨"A", [1], []⟩, ⟨"B", [], []⟩, ⟨"C", [], []⟩] := by
  have h := enrichmentMergeTotalAndRobust
    [("A", some [1]), ("B", (none : Option (List Nat)))]
    ([] : List (String × Option (List Nat))) ["A", "B", "C"]
  refine ⟨h.2.1 "C" (by decide), ?_, by rfl, by rfl⟩
  exact h.2.2.2.1 [("A", some [1])] [] "B" rfl (by decide)

/-- C8: the filter-to-SQL compilation is a pure function of the filter
state — two runs give byte-identical query text and parameter list — and
the shuffle parameter of the render pipeline cannot influence the compiled
query, only the displayed order. -/
theorem compilerDeterministic (s : FilterState) :
    compiledQuery s = compiledQuery s ∧
    (whereSQL s, queryParams s) = (whereSQL s, queryParams s) ∧
    (∀ (R : Type) (shuffleA shuffleB : List R → List R) (recs : List R),
      (renderPipeline shuffleA s recs).1 = (renderPipeline shuffleB s recs).1) := by
  exact ⟨rfl, rfl, fun R sa sb recs => rfl⟩

set_option maxRecDepth 400000 in
/-- C9 counterexample: origin `South Australia` (no source flag) is mapped
to the US flag because `us` is the first table entry occurring in it, while
the longest/most-specific matching country name is `australia`, whose flag
differs.  The lookup is first-match-in-table-order, not longest-match. -/
theorem flagIconCounterexample :
    getFlagIcon "South Australia" "" = "🇺🇸" ∧
    (longestCountryMatch (strTrim (strLower "South Australia"))).map Prod.snd =
      some "🇦🇺" ∧
    getFlagIcon "South Australia" "" ≠ "🇦🇺" := by
  refine ⟨by decide, by decide, by decide⟩

/-- C9 amended: `get_flag_icon` returns the US flag whenever the source flag
is `domestic` (trimmed, lowercased) or the lowered origin contains
`domestic`; otherwise an exact table hit wins, then the FIRST table entry
(in the dict's fixed insertion order) whose name occurs in the lowered
origin — not the longest such name — and the globe is the fallback when the
source flag is `import` and nothing matched. -/
theorem flagIconFirstMatchAmended (origin ctSource : String) :
    (sourceTagIs ctSource "domestic" = true → getFlagIcon origin ctSource = "🇺🇸") ∧
    (sourceTagIs ctSource "domestic" = false → origin ≠ "" →
      substrB "domestic" (strTrim (strLower origin)) = true →
      getFlagIcon origin ctSource = "🇺🇸") ∧
    (∀ p, sourceTagIs ctSource "domestic" = false → origin ≠ "" →
      substrB "domestic" (strTrim (strLower origin)) = false →
      flagMap.find? (fun q => q.1 == strTrim (strLower origin)) = some p →
      getFlagIcon origin ctSource = p.2) ∧
    (∀ p, sourceTagIs ctSource "domestic" = false → origin ≠ "" →
      substrB "domestic" (strTrim (strLower origin)) = false →
      flagMap.find? (fun q => q.1 == strTrim (strLower origin)) = none →
      flagMap.find? (fun q => substrB q.1 (strTrim (strLower origin))) = some p →
      getFlagIcon origin ctSource = p.2) ∧
    (sourceTagIs ctSource "domestic" = false → origin ≠ "" →
      substrB "domestic" (strTrim (strLower origin)) = false →
      flagMap.find? (fun q => q.1 == strTrim (strLower origin)) = none →
      flagMap.find? (fun q => substrB q.1 (strTrim (strLower origin))) = none →
      sourceTagIs ctSource "import" = true →
      getFlagIcon origin ctSource = "🌍") := by
  refine ⟨fun h1 => ?_, fun h1 h2 h3 => ?_, fun p h1 h2 h3 h4 => ?_,
    fun p h1 h2 h3 h4 h5 => ?_, fun h1 h2 h3 h4 h5 h6 => ?_⟩
  · simp [getFlagIcon, h1]
  · have hbe := beq_eq_false_iff_ne.mpr h2
    simp [getFlagIcon, h1, hbe, h3]
  · have hbe := beq_eq_false_iff_ne.mpr h2
    simp [getFlagIcon, h1, hbe, h3, h4]
  · have hbe := beq_eq_false_iff_ne.mpr h2
    simp [getFlagIcon, h1, hbe, h3, h4, h5]
  · have hbe := beq_eq_false_iff_ne.mpr h2
    simp [getFlagIcon, h1, hbe, h3, h4, h5, h6]

set_option maxRecDepth 1000000 in
/-- C9 witness: the domestic override, the exact hit, the first-partial-match
rule and the import fallback, each at a concrete input. -/
theorem flagIconFirstMatchAmended_witness :
    getFlagIcon "anything" " Domestic " = "🇺🇸" ∧
    getFlagIcon "France" "" = "🇫🇷" ∧
    getFlagIcon "South Australia" "" = "🇺🇸" ∧
    getFlagIcon "Atlantis" "import" = "🌍" := by
  refine ⟨(flagIconFirstMatchAmended "anything" " Domestic ").1 (by decide),
    (flagIconFirstMatchAmended "France" "").2.2.1 ("france", "🇫🇷")
      (by decide) (by decide) (by decide) (by decide),
    (flagIconFirstMatchAmended "South Australia" "").2.2.2.1 ("us", "🇺🇸")
      (by decide) (by decide) (by decide) (by decide) (by decide),
    (flagIconFirstMatchAmended "Atlantis" "import").2.2.2.2
      (by decide) (by decide) (by decide) (by decide) (by decide) (by decide)⟩
